import Mathlib

set_option linter.unusedVariables false

/-!
Shallow embedding of the video-sharing backend controllers
(like.controller.js / video controller, comment controller,
subscription controller) over list-based collection states.

Identifiers are strings (MongoDB ObjectId strings); synthetic `_id`
values for Like/Subscription documents are allocated from a counter.
Each controller is a function from the request inputs and the database
state to an `Except ApiError` result paired with the resulting state
(state is returned even on error, since a thrown error in the source
does not roll back earlier writes).
-/

deriving instance DecidableEq for Except

/-- Embedding of `mongoose.Types.ObjectId.isValid` on strings: a valid
ObjectId string is either 12 characters long or 24 hex characters. -/
def isHexChar (c : Char) : Bool :=
  c.isDigit || (('a' ≤ c) && (c ≤ 'f')) || (('A' ≤ c) && (c ≤ 'F'))

def isValidObjectId (s : String) : Bool :=
  s.length == 12 || (s.length == 24 && s.toList.all isHexChar)

/-- Embedding of `ApiError(statusCode, message)`. -/
structure ApiError where
  statusCode : Nat
  message : String
deriving DecidableEq, Repr

/-- Embedding of `ApiResponse(statusCode, data, message)`. -/
structure ApiResponse (α : Type) where
  statusCode : Nat
  data : α
  message : String
deriving DecidableEq, Repr

/-- Video document (video.model): urls, opaque media ids, counters, owner. -/
structure VideoDoc where
  _id : String
  title : String
  description : String
  videoFile : String
  videoPublicId : Option String
  thumbnail : String
  thumbnailPublicId : Option String
  duration : Nat
  views : Nat
  isPublished : Bool
  owner : String
  createdAt : Nat
  updatedAt : Nat
deriving DecidableEq, Repr

/-- Comment document (comment.model). -/
structure CommentDoc where
  _id : String
  content : String
  video : String
  owner : String
deriving DecidableEq, Repr

/-- Like document (like.model): optional video / comment target refs. -/
structure LikeDoc where
  _id : Nat
  video : Option String
  comment : Option String
  likedBy : String
deriving DecidableEq, Repr

/-- Subscription document (subscription.model). -/
structure SubscriptionDoc where
  _id : Nat
  subscriber : String
  channel : String
deriving DecidableEq, Repr

/-- User document (user.model, external): profile fields read by the
controllers, including the email that the subscriber projection exposes. -/
structure UserDoc where
  _id : String
  username : String
  fullName : String
  avatar : String
  email : String
deriving DecidableEq, Repr

/-- Database state: the four owned collections plus the external users
collection, and a counter allocating fresh `_id`s for Like/Subscription. -/
structure DB where
  videos : List VideoDoc
  comments : List CommentDoc
  likes : List LikeDoc
  subscriptions : List SubscriptionDoc
  users : List UserDoc
  nextId : Nat
deriving DecidableEq, Repr

/-- Media store (Cloudinary): the set of public ids currently stored,
as a list. `deleteFromCloudinary` removes a public id (best-effort in the
source; deletion failures are logged and ignored, so modelled as removal). -/
abbrev MediaStore := List String

def deleteFromCloudinary (ms : MediaStore) (publicId : String) : MediaStore :=
  ms.filter (fun p => !(p == publicId))

/-- Result of a successful `uploadOnCloudinary` call: url, public id,
duration. A failed upload is `none` (the source returns `null`). -/
structure UploadResult where
  url : String
  public_id : String
  duration : Nat
deriving DecidableEq, Repr

/-- Adding a freshly uploaded asset to the media store. -/
def uploadToStore (ms : MediaStore) (r : UploadResult) : MediaStore :=
  ms ++ [r.public_id]

/-- Embedding of `findByIdAndUpdate`-style single-document update: update
the first list element satisfying the predicate, returning the updated
document (the `{new: true}` result) and the updated list; `none` and the
unchanged list when no element matches. -/
def updateFirstP (p : α → Bool) (f : α → α) : List α → Option α × List α
  | [] => (none, [])
  | x :: xs =>
    if p x then (some (f x), f x :: xs)
    else
      let r := updateFirstP p f xs
      (r.1, x :: r.2)

/-- Query predicate of `toggleVideoLike`'s `Like.findOne({video, likedBy})`:
it constrains only the video reference and the liker, not the comment
reference. -/
def likeVideoMatch (vid uid : String) (l : LikeDoc) : Bool :=
  l.video == some vid && l.likedBy == uid

/-- Query predicate of `toggleCommentLike`'s `Like.findOne({comment, likedBy})`. -/
def likeCommentMatch (cid uid : String) (l : LikeDoc) : Bool :=
  l.comment == some cid && l.likedBy == uid

/-- Existence of a Like matching `toggleVideoLike`'s query in a state. -/
def hasVideoLike (db : DB) (vid uid : String) : Bool :=
  (db.likes.find? (likeVideoMatch vid uid)).isSome

/-- Existence of a Like matching `toggleCommentLike`'s query in a state. -/
def hasCommentLike (db : DB) (cid uid : String) : Bool :=
  (db.likes.find? (likeCommentMatch cid uid)).isSome

/-- Embedding of `toggleVideoLike` (like.controller.js): validates the id,
checks the video exists and the caller is authenticated, then finds a Like
by `{video: videoId, likedBy: userId}` and deletes it (returning
`isLiked = false`) or creates `{video: videoId, likedBy: userId}`
(returning `isLiked = true`). -/
def toggleVideoLike (db : DB) (videoId userId : Option String) :
    (Except ApiError Bool) × DB :=
  match videoId with
  | none => (.error ⟨400, "Video ID is required"⟩, db)
  | some vid =>
    if !isValidObjectId vid then (.error ⟨400, "Invalid Video ID provided"⟩, db)
    else
      match db.videos.find? (fun v => v._id == vid) with
      | none => (.error ⟨404, "Video not found"⟩, db)
      | some _ =>
        match userId with
        | none => (.error ⟨401, "User not authenticated to like videos"⟩, db)
        | some uid =>
          match db.likes.find? (likeVideoMatch vid uid) with
          | some existingLike =>
            (.ok false,
              { db with likes := db.likes.eraseP (fun l => l._id == existingLike._id) })
          | none =>
            (.ok true,
              { db with
                  likes := db.likes ++ [⟨db.nextId, some vid, none, uid⟩],
                  nextId := db.nextId + 1 })

/-- Embedding of `toggleCommentLike` (like.controller.js): same toggle
pattern keyed by `{comment: commentId, likedBy: userId}`; the created Like
additionally carries `video: comment.video` (the denormalized owning
video reference). -/
def toggleCommentLike (db : DB) (commentId userId : Option String) :
    (Except ApiError Bool) × DB :=
  match commentId with
  | none => (.error ⟨400, "Comment ID is required"⟩, db)
  | some cid =>
    if !isValidObjectId cid then (.error ⟨400, "Invalid comment ID provided"⟩, db)
    else
      match db.comments.find? (fun c => c._id == cid) with
      | none => (.error ⟨404, "Video not found"⟩, db)
      | some comment =>
        match userId with
        | none => (.error ⟨401, "User not authenticated to like videos"⟩, db)
        | some uid =>
          match db.likes.find? (likeCommentMatch cid uid) with
          | some existingLike =>
            (.ok false,
              { db with likes := db.likes.eraseP (fun l => l._id == existingLike._id) })
          | none =>
            (.ok true,
              { db with
                  likes := db.likes ++ [⟨db.nextId, some comment.video, some cid, uid⟩],
                  nextId := db.nextId + 1 })

/-- Projected owner subdocument (username / fullName / avatar plus id). -/
structure OwnerView where
  _id : String
  username : String
  fullName : String
  avatar : String
deriving DecidableEq, Repr

def mkOwnerView (u : UserDoc) : OwnerView :=
  ⟨u._id, u.username, u.fullName, u.avatar⟩

/-- Shape of one entry of `getLikedVideos`' aggregation output. -/
structure LikedVideoView where
  _id : String
  videoFile : String
  thumbnail : String
  title : String
  description : String
  duration : Nat
  views : Nat
  isPublished : Bool
  createdAt : Nat
  owner : OwnerView
deriving DecidableEq, Repr

def mkLikedVideoView (v : VideoDoc) (u : UserDoc) : LikedVideoView :=
  ⟨v._id, v.videoFile, v.thumbnail, v.title, v.description, v.duration,
    v.views, v.isPublished, v.createdAt, mkOwnerView u⟩

/-- Aggregation pipeline of `getLikedVideos`: match likes of the user whose
video field exists and is non-null, join-and-unwind the video, then
join-and-unwind the owner, projecting the view shape. Unwinding drops
entries whose lookup found nothing. -/
def likedVideosAgg (db : DB) (uid : String) : List LikedVideoView :=
  (db.likes.filter (fun l => l.likedBy == uid && l.video.isSome)).flatMap
    (fun l => (db.videos.filter (fun v => some v._id == l.video)).flatMap
      (fun v => (db.users.filter (fun u => u._id == v.owner)).map
        (fun u => mkLikedVideoView v u)))

/-- Embedding of `getLikedVideos` (like.controller.js): validates the
caller id, runs the aggregation, and returns `200` with an empty list when
nothing was liked, `200` with the list otherwise. -/
def getLikedVideos (db : DB) (userId : Option String) :
    Except ApiError (ApiResponse (List LikedVideoView)) :=
  match userId with
  | none => .error ⟨401, "User not authenticated or invalid user ID"⟩
  | some uid =>
    if !isValidObjectId uid then
      .error ⟨401, "User not authenticated or invalid user ID"⟩
    else
      let likedVideos := likedVideosAgg db uid
      if likedVideos.length == 0 then
        .ok ⟨200, [], "User hasn't liked any videos"⟩
      else
        .ok ⟨200, likedVideos, "Liked videos fetched successfully"⟩

/-- Embedding of `toggleSubscription` (subscription controller): requires
authentication, validates the channel id, requires the channel user to
exist, rejects self-subscription with 400, then toggles the
`{subscriber, channel}` record and reports the resulting boolean state
with the channel id. -/
def toggleSubscription (db : DB) (channelId userId : Option String) :
    (Except ApiError (Bool × String)) × DB :=
  match userId with
  | none => (.error ⟨401, "User not authenticated. Please log in."⟩, db)
  | some uid =>
    match channelId with
    | none => (.error ⟨400, "Invalid channel ID provided."⟩, db)
    | some cid =>
      if !isValidObjectId cid then (.error ⟨400, "Invalid channel ID provided."⟩, db)
      else
        match db.users.find? (fun u => u._id == cid) with
        | none => (.error ⟨404, "Channel not found."⟩, db)
        | some _ =>
          if uid == cid then
            (.error ⟨400, "You cannot subscribe to your own channel."⟩, db)
          else
            match db.subscriptions.find?
                (fun s => s.subscriber == uid && s.channel == cid) with
            | some existingSubscription =>
              (.ok (false, cid),
                { db with subscriptions :=
                    db.subscriptions.eraseP (fun s => s._id == existingSubscription._id) })
            | none =>
              (.ok (true, cid),
                { db with
                    subscriptions := db.subscriptions ++ [⟨db.nextId, uid, cid⟩],
                    nextId := db.nextId + 1 })

/-- Subscriber projection of `getUserChannelSubscribers`: the source
projects `_id`, `username`, `email`, `avatar` and `fullName` of the
subscriber's user document. -/
structure SubscriberView where
  _id : String
  username : String
  email : String
  avatar : String
  fullName : String
deriving DecidableEq, Repr

def mkSubscriberView (u : UserDoc) : SubscriberView :=
  ⟨u._id, u.username, u.email, u.avatar, u.fullName⟩

/-- Embedding of `getUserChannelSubscribers` (subscription controller):
match subscriptions of the channel, join-and-unwind the subscriber user,
project the subscriber fields; returns `200` with an empty list when
there are no subscribers. -/
def getUserChannelSubscribers (db : DB) (channelId : Option String) :
    Except ApiError (ApiResponse (List SubscriberView)) :=
  match channelId with
  | none => .error ⟨400, "Invalid channel ID provided."⟩
  | some cid =>
    if !isValidObjectId cid then .error ⟨400, "Invalid channel ID provided."⟩
    else
      let subscribers :=
        (db.subscriptions.filter (fun s => s.channel == cid)).flatMap
          (fun s => (db.users.filter (fun u => u._id == s.subscriber)).map
            (fun u => mkSubscriberView u))
      if subscribers.length == 0 then
        .ok ⟨200, [], "No subscribers found for this channel."⟩
      else
        .ok ⟨200, subscribers, "Subscribers fetched successfully."⟩

/-- Shape of `getVideoById`'s aggregation output (one video joined with
its owner's public fields). -/
structure VideoView where
  videoFile : String
  thumbnail : String
  title : String
  description : String
  duration : Nat
  views : Nat
  isPublished : Bool
  createdAt : Nat
  updatedAt : Nat
  owner : OwnerView
deriving DecidableEq, Repr

def mkVideoView (v : VideoDoc) (u : UserDoc) : VideoView :=
  ⟨v.videoFile, v.thumbnail, v.title, v.description, v.duration, v.views,
    v.isPublished, v.createdAt, v.updatedAt, mkOwnerView u⟩

/-- Embedding of `getVideoById` (video controller): validates the id, runs
the match/owner-lookup/unwind aggregation (404 when it yields nothing),
then increments the view counter of the stored video with
`findByIdAndUpdate {$inc: {views: 1}} {new: true}` and overwrites the
`views` field of the response with the post-increment value. -/
def getVideoById (db : DB) (videoId : Option String) :
    (Except ApiError VideoView) × DB :=
  match videoId with
  | none => (.error ⟨400, "Video ID is required"⟩, db)
  | some vid =>
    if !isValidObjectId vid then (.error ⟨400, "Invalid Video ID"⟩, db)
    else
      let agg := (db.videos.filter (fun v => v._id == vid)).flatMap
        (fun v => (db.users.filter (fun u => u._id == v.owner)).map
          (fun u => (v, u)))
      match agg with
      | [] => (.error ⟨404, "Video not found"⟩, db)
      | (v, u) :: _ =>
        let upd := updateFirstP (fun w => w._id == vid)
          (fun w => { w with views := w.views + 1 }) db.videos
        match upd.1 with
        | some updatedVideo =>
          (.ok { mkVideoView v u with views := updatedVideo.views },
            { db with videos := upd.2 })
        | none =>
          (.error ⟨500, "TypeError: cannot read views of null"⟩,
            { db with videos := upd.2 })

/-- Embedding of `deleteVideo` (video controller): validates the id, finds
the video, checks ownership, best-effort deletes both media assets, then
`Like.deleteMany({video: videoId})`, `Comment.deleteMany({video: videoId})`,
and `Video.deleteOne({_id: videoId})`, erroring with 500 when the final
delete removed nothing. Returns the deleted-video count. -/
def deleteVideo (db : DB) (ms : MediaStore) (videoId userId : Option String) :
    (Except ApiError Nat) × DB × MediaStore :=
  match videoId with
  | none => (.error ⟨400, "Video ID is required"⟩, db, ms)
  | some vid =>
    if !isValidObjectId vid then (.error ⟨400, "Invalid Video ID"⟩, db, ms)
    else
      match db.videos.find? (fun v => v._id == vid) with
      | none => (.error ⟨404, "Video not found"⟩, db, ms)
      | some videoToDelete =>
        if !(userId == some videoToDelete.owner) then
          (.error ⟨403, "You are not authorized to delete this video"⟩, db, ms)
        else
          let ms1 := match videoToDelete.videoPublicId with
            | some pid => deleteFromCloudinary ms pid
            | none => ms
          let ms2 := match videoToDelete.thumbnailPublicId with
            | some pid => deleteFromCloudinary ms1 pid
            | none => ms1
          let likes' := db.likes.filter (fun l => !(l.video == some vid))
          let comments' := db.comments.filter (fun c => !(c.video == vid))
          let videos' := db.videos.eraseP (fun v => v._id == vid)
          let db' := { db with likes := likes', comments := comments', videos := videos' }
          let deletedCount := db.videos.length - videos'.length
          if deletedCount == 0 then
            (.error ⟨500, "Failed to delete video from database"⟩, db', ms2)
          else
            (.ok deletedCount, db', ms2)

/-- Embedding of `updateVideo` (video controller): validates the id,
requires at least one updatable field, finds the video, checks ownership;
for each of the video file and the thumbnail present in the request it
uploads the replacement first (500 on upload failure, aborting) and only
then best-effort deletes the previous asset of that field; finally applies
all collected `$set` fields with a single `findByIdAndUpdate`. The upload
behaviour is supplied as an oracle from local path to optional result. -/
def updateVideo (db : DB) (ms : MediaStore) (up : String → Option UploadResult)
    (videoId userId title description videoPath thumbPath : Option String) :
    (Except ApiError VideoDoc) × DB × MediaStore :=
  match videoId with
  | none => (.error ⟨400, "Video ID is required"⟩, db, ms)
  | some vid =>
    if !isValidObjectId vid then (.error ⟨400, "Invalid Video ID"⟩, db, ms)
    else if title.isNone && description.isNone && videoPath.isNone && thumbPath.isNone then
      (.error ⟨400, "At least one field (title, description, video, or thumbnail) is required to update."⟩, db, ms)
    else
      match db.videos.find? (fun v => v._id == vid) with
      | none => (.error ⟨404, "Video not found"⟩, db, ms)
      | some video =>
        if !(userId == some video.owner) then
          (.error ⟨403, "You are not authorized to update this video"⟩, db, ms)
        else
          let updBase : VideoDoc → VideoDoc := fun w =>
            let w1 := match title with
              | some t => { w with title := t }
              | none => w
            match description with
            | some d => { w1 with description := d }
            | none => w1
          let videoStep : Except ApiError ((VideoDoc → VideoDoc) × MediaStore) :=
            match videoPath with
            | none => .ok (id, ms)
            | some p =>
              match up p with
              | none => .error ⟨500, "Error while uploading new video file to Cloudinary (no URL or public_id)"⟩
              | some newVideoFile =>
                let msA := uploadToStore ms newVideoFile
                let msB := match video.videoPublicId with
                  | some oldPid => deleteFromCloudinary msA oldPid
                  | none => msA
                .ok ((fun w => { w with
                    videoFile := newVideoFile.url,
                    videoPublicId := some newVideoFile.public_id,
                    duration := newVideoFile.duration }), msB)
          match videoStep with
          | .error e => (.error e, db, ms)
          | .ok (updV, ms1) =>
            let thumbStep : Except ApiError ((VideoDoc → VideoDoc) × MediaStore) :=
              match thumbPath with
              | none => .ok (id, ms1)
              | some p =>
                match up p with
                | none => .error ⟨500, "Error while uploading new thumbnail to Cloudinary"⟩
                | some newThumbnail =>
                  let msA := uploadToStore ms1 newThumbnail
                  let msB := match video.thumbnailPublicId with
                    | some oldPid => deleteFromCloudinary msA oldPid
                    | none => msA
                  .ok ((fun w => { w with
                      thumbnail := newThumbnail.url,
                      thumbnailPublicId := some newThumbnail.public_id }), msB)
            match thumbStep with
            | .error e => (.error e, db, ms1)
            | .ok (updT, ms2) =>
              let upd := updateFirstP (fun w => w._id == vid)
                (fun w => updT (updV (updBase w))) db.videos
              match upd.1 with
              | some updatedVideo =>
                (.ok updatedVideo, { db with videos := upd.2 }, ms2)
              | none =>
                (.error ⟨500, "Something went wrong while updating the video. Video might have been deleted."⟩,
                  { db with videos := upd.2 }, ms2)

/-! Generic list lemmas used to reason about `find?` / `eraseP` /
`updateFirstP` against `filter`-style hypotheses. -/

theorem find?_of_decomp (p : α → Bool) {xs pre post : List α} {v : α}
    (hx : xs = pre ++ v :: post) (hpre : ∀ x ∈ pre, p x = false)
    (hv : p v = true) : xs.find? p = some v := by
  subst hx
  rw [List.find?_append]
  have hnone : pre.find? p = none := by
    rw [List.find?_eq_none]
    intro x hxmem
    simp [hpre x hxmem]
  rw [hnone, List.find?_cons_of_pos _ hv]
  rfl

theorem eraseP_of_decomp (p : α → Bool) {xs pre post : List α} {v : α}
    (hx : xs = pre ++ v :: post) (hpre : ∀ x ∈ pre, p x = false)
    (hv : p v = true) : xs.eraseP p = pre ++ post := by
  subst hx
  rw [List.eraseP_append_right _ (by intro b hb; simp [hpre b hb]),
    List.eraseP_cons_of_pos hv]

theorem updateFirstP_of_decomp (p : α → Bool) (f : α → α)
    {xs pre post : List α} {v : α}
    (hx : xs = pre ++ v :: post) (hpre : ∀ x ∈ pre, p x = false)
    (hv : p v = true) :
    updateFirstP p f xs = (some (f v), pre ++ f v :: post) := by
  subst hx
  induction pre with
  | nil => simp [updateFirstP, hv]
  | cons x xs ih =>
    have hx : p x = false := hpre x (by simp)
    have h2 := ih (fun y hy => hpre y (by simp [hy]))
    simp only [List.cons_append, updateFirstP, hx, Bool.false_eq_true, if_false]
    rw [show (xs.append (v :: post)) = xs ++ v :: post from rfl, h2]

theorem updateFirstP_of_no_match (p : α → Bool) (f : α → α)
    {xs : List α} (h : ∀ x ∈ xs, p x = false) :
    updateFirstP p f xs = (none, xs) := by
  induction xs with
  | nil => rfl
  | cons x xs ih =>
    have hx : p x = false := h x (by simp)
    simp only [updateFirstP, hx, Bool.false_eq_true, if_false]
    rw [ih (fun y hy => h y (by simp [hy]))]

/-- Unpacking `filter p xs = v :: vs` into a positional decomposition. -/
theorem filter_eq_cons_decomp {p : α → Bool} {xs vs : List α} {v : α}
    (h : xs.filter p = v :: vs) :
    ∃ pre post, xs = pre ++ v :: post ∧ (∀ x ∈ pre, p x = false) ∧
      p v = true ∧ post.filter p = vs := by
  rcases List.filter_eq_cons_iff.mp h with ⟨pre, post, hx, hpre, hv, hpost⟩
  exact ⟨pre, post, hx, fun x hxm => by simpa using hpre x hxm, hv, hpost⟩

/-! Concrete sample state used by the C1/C2 counterexamples: one owner,
one liker, one video, one comment on that video, no likes yet. -/

def ownerUser : UserDoc :=
  ⟨"useraaaaaaa1", "owner", "Owner One", "http://a/o.png", "owner@mail.x"⟩

def likerUser : UserDoc :=
  ⟨"useraaaaaaa2", "fan", "Fan Two", "http://a/f.png", "fan@mail.x"⟩

def sampleVideo : VideoDoc :=
  ⟨"videoaaaaaa1", "Cats", "A cat video", "http://v/1.mp4", some "pubv1",
    "http://t/1.png", some "pubt1", 42, 7, true, "useraaaaaaa1", 1, 1⟩

def sampleComment : CommentDoc :=
  ⟨"commentaaaa1", "nice video", "videoaaaaaa1", "useraaaaaaa1"⟩

def c1Db : DB :=
  { videos := [sampleVideo], comments := [sampleComment], likes := [],
    subscriptions := [], users := [ownerUser, likerUser], nextId := 0 }

/-- C1 (counterexample): in the sample state, `toggleCommentLike` finds no
existing Like for (comment, liker) and creates one, but the created Like
record has its video reference SET (to the comment's owning video
"videoaaaaaa1"), not unset as the claim states. -/
theorem c1_counterexample :
    (toggleCommentLike c1Db (some "commentaaaa1") (some "useraaaaaaa2")).2.likes =
      [⟨0, some "videoaaaaaa1", some "commentaaaa1", "useraaaaaaa2"⟩] ∧
    ¬ (∀ l ∈ (toggleCommentLike c1Db (some "commentaaaa1") (some "useraaaaaaa2")).2.likes,
        l.comment = some "commentaaaa1" → l.video = none) := by
  constructor
  · decide
  · decide

/-- C1 (amended): the Like record created by `toggleCommentLike` when no
existing Like(comment, liker) is found has its comment reference set and
its video reference ALSO set, denormalized to the comment's owning video;
after the call exactly one Like matches the (comment, liker) pair. -/
theorem c1_toggleCommentLike_creates_denormalized_like
    (db : DB) (cid uid : String) (c : CommentDoc)
    (hval : isValidObjectId cid = true)
    (hc : db.comments.find? (fun x => x._id == cid) = some c)
    (hnone : db.likes.find? (likeCommentMatch cid uid) = none) :
    (toggleCommentLike db (some cid) (some uid)).1 = .ok true ∧
    (toggleCommentLike db (some cid) (some uid)).2.likes.filter
        (likeCommentMatch cid uid) =
      [⟨db.nextId, some c.video, some cid, uid⟩] := by
  simp only [toggleCommentLike, hval, Bool.not_true, Bool.false_eq_true,
    if_false, hc, hnone]
  refine ⟨trivial, ?_⟩
  rw [List.filter_append, List.filter_eq_nil_iff.mpr ?_, List.nil_append]
  · simp [List.filter_cons, likeCommentMatch]
  · intro a ha hmatch
    rw [List.find?_eq_none] at hnone
    exact hnone a ha hmatch

/-- C1 (witness for the amended theorem): the sample state satisfies the
hypotheses, and the created Like carries both references. -/
theorem c1_witness :
    (toggleCommentLike c1Db (some "commentaaaa1") (some "useraaaaaaa2")).1 = .ok true ∧
    (toggleCommentLike c1Db (some "commentaaaa1") (some "useraaaaaaa2")).2.likes.filter
        (likeCommentMatch "commentaaaa1" "useraaaaaaa2") =
      [⟨c1Db.nextId, some sampleComment.video, some "commentaaaa1", "useraaaaaaa2"⟩] :=
  c1_toggleCommentLike_creates_denormalized_like c1Db "commentaaaa1" "useraaaaaaa2"
    sampleComment (by decide) (by decide) (by decide)

/-- Membership characterization of the `getLikedVideos` aggregation: an
entry appears iff some Like of the user carries the video reference of an
existing video whose owner exists — with no condition on the Like's
comment reference. -/
theorem mem_likedVideosAgg (db : DB) (uid : String) (x : LikedVideoView) :
    x ∈ likedVideosAgg db uid ↔
      ∃ l ∈ db.likes, l.likedBy = uid ∧
        ∃ v ∈ db.videos, l.video = some v._id ∧
          ∃ u ∈ db.users, u._id = v.owner ∧ x = mkLikedVideoView v u := by
  unfold likedVideosAgg
  simp only [List.mem_flatMap, List.mem_filter, List.mem_map, Bool.and_eq_true,
    beq_iff_eq, Option.isSome_iff_exists]
  constructor
  · rintro ⟨l, ⟨hl, hlik, w, hw⟩, v, ⟨hv, hvid⟩, u, ⟨hu, hou⟩, hx⟩
    exact ⟨l, hl, hlik, v, hv, hvid.symm, u, hu, hou, hx.symm⟩
  · rintro ⟨l, hl, hlik, v, hv, hvid, u, hu, hou, hx⟩
    exact ⟨l, ⟨hl, hlik, v._id, hvid⟩, v, ⟨hv, hvid.symm⟩, u, ⟨hu, hou⟩, hx.symm⟩

/-- State reached from the C1 sample state by liking the comment: the only
Like is the comment-like (which carries the denormalized video). -/
def c2Db : DB :=
  { videos := [sampleVideo], comments := [sampleComment],
    likes := [⟨0, some "videoaaaaaa1", some "commentaaaa1", "useraaaaaaa2"⟩],
    subscriptions := [], users := [ownerUser, likerUser], nextId := 1 }

/-- C2 (counterexample): after `toggleCommentLike` the liker's only Like
is a comment-like (comment reference set), yet `getLikedVideos` returns a
NON-empty list containing the owning video — the comment-like contributes
a video to the result, contradicting the claim. -/
theorem c2_counterexample :
    (toggleCommentLike c1Db (some "commentaaaa1") (some "useraaaaaaa2")).2 = c2Db ∧
    (∀ l ∈ c2Db.likes, ¬ l.comment = none) ∧
    getLikedVideos c2Db (some "useraaaaaaa2") =
      .ok ⟨200, [mkLikedVideoView sampleVideo ownerUser],
        "Liked videos fetched successfully"⟩ := by
  refine ⟨by decide, by decide, by rfl⟩

/-- C2 (amended): for every liker with a valid id, `getLikedVideos`
succeeds with status 200 (empty result included), and its entries are
exactly the owner-joined videos referenced by ALL of the liker's Likes
carrying a video reference — including comment-likes created by
`toggleCommentLike`, which carry the denormalized owning video. -/
theorem c2_getLikedVideos_spec (db : DB) (uid : String)
    (hval : isValidObjectId uid = true) :
    ∃ L msg, getLikedVideos db (some uid) = .ok ⟨200, L, msg⟩ ∧
      ∀ x : LikedVideoView, x ∈ L ↔
        ∃ l ∈ db.likes, l.likedBy = uid ∧
          ∃ v ∈ db.videos, l.video = some v._id ∧
            ∃ u ∈ db.users, u._id = v.owner ∧ x = mkLikedVideoView v u := by
  unfold getLikedVideos
  simp only [hval, Bool.not_true, Bool.false_eq_true, if_false]
  rcases heq : likedVideosAgg db uid with _ | ⟨y, ys⟩
  · refine ⟨[], "User hasn't liked any videos", by simp [heq], ?_⟩
    intro x
    rw [← mem_likedVideosAgg db uid x, heq]
  · refine ⟨y :: ys, "Liked videos fetched successfully", by simp [heq], ?_⟩
    intro x
    rw [← mem_likedVideosAgg db uid x, heq]

/-- C2 (witness): the amended theorem applied to the comment-like sample
state and its liker. -/
theorem c2_witness :
    ∃ L msg, getLikedVideos c2Db (some "useraaaaaaa2") = .ok ⟨200, L, msg⟩ ∧
      ∀ x : LikedVideoView, x ∈ L ↔
        ∃ l ∈ c2Db.likes, l.likedBy = "useraaaaaaa2" ∧
          ∃ v ∈ c2Db.videos, l.video = some v._id ∧
            ∃ u ∈ c2Db.users, u._id = v.owner ∧ x = mkLikedVideoView v u :=
  c2_getLikedVideos_spec c2Db "useraaaaaaa2" (by decide)

/-- Sample state for the subscription claims: the fan subscribes to the
owner's channel. -/
def c7Db : DB :=
  { videos := [], comments := [], likes := [],
    subscriptions := [⟨0, "useraaaaaaa2", "useraaaaaaa1"⟩],
    users := [ownerUser, likerUser], nextId := 1 }

/-- C7 (counterexample): `getUserChannelSubscribers` returns the
subscriber's email address in addition to the public profile fields: the
projected entry for the fan exposes the email stored on the user record,
contradicting the claim that only username, full name, avatar (plus id)
are returned. -/
theorem c7_counterexample :
    getUserChannelSubscribers c7Db (some "useraaaaaaa1") =
      .ok ⟨200, [mkSubscriberView likerUser], "Subscribers fetched successfully."⟩ ∧
    (mkSubscriberView likerUser).email = "fan@mail.x" := by
  exact ⟨by rfl, by rfl⟩

/-- C7 (amended): for every channel with a valid id,
`getUserChannelSubscribers` succeeds with status 200 and returns, for each
subscription of the channel whose subscriber user exists, the projection
of the subscriber's `_id`, `username`, `email`, `avatar` and `fullName` —
i.e. the public profile fields PLUS the email. -/
theorem c7_getUserChannelSubscribers_spec (db : DB) (cid : String)
    (hval : isValidObjectId cid = true) :
    ∃ L msg, getUserChannelSubscribers db (some cid) = .ok ⟨200, L, msg⟩ ∧
      ∀ x : SubscriberView, x ∈ L ↔
        ∃ s ∈ db.subscriptions, s.channel = cid ∧
          ∃ u ∈ db.users, u._id = s.subscriber ∧ x = mkSubscriberView u := by
  unfold getUserChannelSubscribers
  simp only [hval, Bool.not_true, Bool.false_eq_true, if_false]
  have hmem : ∀ x : SubscriberView,
      x ∈ (db.subscriptions.filter (fun s => s.channel == cid)).flatMap
          (fun s => (db.users.filter (fun u => u._id == s.subscriber)).map
            (fun u => mkSubscriberView u)) ↔
        ∃ s ∈ db.subscriptions, s.channel = cid ∧
          ∃ u ∈ db.users, u._id = s.subscriber ∧ x = mkSubscriberView u := by
    intro x
    simp only [List.mem_flatMap, List.mem_filter, List.mem_map, beq_iff_eq]
    constructor
    · rintro ⟨s, ⟨hs, hchan⟩, u, ⟨hu, hsub⟩, hx⟩
      exact ⟨s, hs, hchan, u, hu, hsub, hx.symm⟩
    · rintro ⟨s, hs, hchan, u, hu, hsub, hx⟩
      exact ⟨s, ⟨hs, hchan⟩, u, ⟨hu, hsub⟩, hx.symm⟩
  rcases heq : (db.subscriptions.filter (fun s => s.channel == cid)).flatMap
      (fun s => (db.users.filter (fun u => u._id == s.subscriber)).map
        (fun u => mkSubscriberView u)) with _ | ⟨y, ys⟩
  · refine ⟨[], "No subscribers found for this channel.", by simp [heq], ?_⟩
    intro x
    rw [← hmem x, heq]
  · refine ⟨y :: ys, "Subscribers fetched successfully.", by simp [heq], ?_⟩
    intro x
    rw [← hmem x, heq]

/-- C7 (witness): the amended theorem applied to the sample channel. -/
theorem c7_witness :
    ∃ L msg, getUserChannelSubscribers c7Db (some "useraaaaaaa1") = .ok ⟨200, L, msg⟩ ∧
      ∀ x : SubscriberView, x ∈ L ↔
        ∃ s ∈ c7Db.subscriptions, s.channel = "useraaaaaaa1" ∧
          ∃ u ∈ c7Db.users, u._id = s.subscriber ∧ x = mkSubscriberView u :=
  c7_getUserChannelSubscribers_spec c7Db "useraaaaaaa1" (by decide)

/-- C8: for an authenticated caller whose own user record exists, calling
`toggleSubscription` with a channel id equal to the caller's own id is
rejected with status 400 and the database — in particular the
subscriptions collection — is unchanged. -/
theorem c8_toggleSubscription_rejects_self (db : DB) (uid : String) (u : UserDoc)
    (hval : isValidObjectId uid = true)
    (huser : db.users.find? (fun x => x._id == uid) = some u) :
    toggleSubscription db (some uid) (some uid) =
      (.error ⟨400, "You cannot subscribe to your own channel."⟩, db) := by
  unfold toggleSubscription
  simp [hval, huser]

/-- C8 (witness): the fan attempting to subscribe to their own channel in
the sample state is rejected with 400 and no state change. -/
theorem c8_witness :
    toggleSubscription c7Db (some "useraaaaaaa2") (some "useraaaaaaa2") =
      (.error ⟨400, "You cannot subscribe to your own channel."⟩, c7Db) :=
  c8_toggleSubscription_rejects_self c7Db "useraaaaaaa2" likerUser
    (by decide) (by decide)

/-- Elements on either side of a positional decomposition have images
different from the middle element's, when the mapped list has no
duplicates. -/
theorem ne_of_map_nodup {f : α → β} {xs pre post : List α} {v : α}
    (hx : xs = pre ++ v :: post) (hn : (xs.map f).Nodup) :
    (∀ x ∈ pre, ¬ f x = f v) ∧ (∀ x ∈ post, ¬ f x = f v) := by
  subst hx
  simp only [List.map_append, List.map_cons, List.nodup_append] at hn
  obtain ⟨h1, h2, h3⟩ := hn
  constructor
  · intro x hxp heq
    exact h3 (List.mem_map_of_mem f hxp) (by rw [heq]; exact List.mem_cons_self _ _)
  · intro x hxp heq
    have hv := (List.nodup_cons.mp h2).1
    exact hv (by rw [← heq]; exact List.mem_map_of_mem f hxp)

/-- When exactly one Like matches the toggle query and the Like ids are
distinct, the found document is that Like and deleting it by id leaves no
match, removes that Like, and shrinks the list by exactly one. -/
theorem single_match_erase_spec {q : LikeDoc → Bool} {xs : List LikeDoc}
    {lk : LikeDoc} (honly : xs.filter q = [lk])
    (hids : (xs.map (fun l => l._id)).Nodup) :
    xs.find? q = some lk ∧
    (xs.eraseP (fun l => l._id == lk._id)).filter q = [] ∧
    lk ∉ xs.eraseP (fun l => l._id == lk._id) ∧
    (xs.eraseP (fun l => l._id == lk._id)).length + 1 = xs.length := by
  obtain ⟨pre, post, hx, hpre, hq, hpost⟩ := filter_eq_cons_decomp honly
  obtain ⟨hne1, hne2⟩ := ne_of_map_nodup hx hids
  have hpreid : ∀ x ∈ pre, (fun l => l._id == lk._id) x = false := by
    intro x hxm
    simp only [beq_eq_false_iff_ne, ne_eq]
    exact hne1 x hxm
  have herase : xs.eraseP (fun l => l._id == lk._id) = pre ++ post :=
    eraseP_of_decomp _ hx hpreid (by simp)
  refine ⟨find?_of_decomp q hx hpre hq, ?_, ?_, ?_⟩
  · rw [herase, List.filter_append, hpost,
      List.filter_eq_nil_iff.mpr (fun a ha => by simp [hpre a ha]), List.nil_append]
  · rw [herase]
    intro hmem
    rcases List.mem_append.mp hmem with hmem | hmem
    · exact hne1 lk hmem rfl
    · exact hne2 lk hmem rfl
  · rw [herase, hx]
    simp
    omega

/-- Unfolding of `toggleVideoLike` in the delete branch. -/
theorem toggleVideoLike_delete_eq (db : DB) (vid uid : String)
    (w : VideoDoc) (lk : LikeDoc)
    (hval : isValidObjectId vid = true)
    (hv : db.videos.find? (fun v => v._id == vid) = some w)
    (hfind : db.likes.find? (likeVideoMatch vid uid) = some lk) :
    toggleVideoLike db (some vid) (some uid) =
      (.ok false,
        { db with likes := db.likes.eraseP (fun l => l._id == lk._id) }) := by
  unfold toggleVideoLike
  simp [hval, hv, hfind]

/-- Unfolding of `toggleVideoLike` in the create branch. -/
theorem toggleVideoLike_create_eq (db : DB) (vid uid : String) (w : VideoDoc)
    (hval : isValidObjectId vid = true)
    (hv : db.videos.find? (fun v => v._id == vid) = some w)
    (hnone : db.likes.find? (likeVideoMatch vid uid) = none) :
    toggleVideoLike db (some vid) (some uid) =
      (.ok true,
        { db with
            likes := db.likes ++ [⟨db.nextId, some vid, none, uid⟩],
            nextId := db.nextId + 1 }) := by
  unfold toggleVideoLike
  simp [hval, hv, hnone]

/-- C9: when the liker's only Like carrying video reference V is a
comment-like (its comment reference is set), `toggleVideoLike(V, liker)`
finds it — the lookup is by (video, liker) only — deletes it and returns
`isLiked = false`: afterwards no Like of the liker carries V (no
video-like was created), the comment-like is gone, and the likes
collection shrank by one. -/
theorem c9_toggleVideoLike_deletes_comment_like (db : DB) (vid uid cid : String)
    (w : VideoDoc) (lk : LikeDoc)
    (hval : isValidObjectId vid = true)
    (hv : db.videos.find? (fun v => v._id == vid) = some w)
    (honly : db.likes.filter (likeVideoMatch vid uid) = [lk])
    (hcomment : lk.comment = some cid)
    (hids : (db.likes.map (fun l => l._id)).Nodup) :
    (toggleVideoLike db (some vid) (some uid)).1 = .ok false ∧
    lk ∉ (toggleVideoLike db (some vid) (some uid)).2.likes ∧
    (toggleVideoLike db (some vid) (some uid)).2.likes.filter
        (likeVideoMatch vid uid) = [] ∧
    (toggleVideoLike db (some vid) (some uid)).2.likes.length + 1 =
      db.likes.length := by
  obtain ⟨hfind, hfilter, hnot, hlen⟩ := single_match_erase_spec honly hids
  rw [toggleVideoLike_delete_eq db vid uid w lk hval hv hfind]
  exact ⟨rfl, hnot, hfilter, hlen⟩

/-- C9 (witness): in the comment-like sample state, toggling the video
like deletes the comment-like and reports not-liked. -/
theorem c9_witness :
    (toggleVideoLike c2Db (some "videoaaaaaa1") (some "useraaaaaaa2")).1 = .ok false ∧
    (⟨0, some "videoaaaaaa1", some "commentaaaa1", "useraaaaaaa2"⟩ : LikeDoc) ∉
      (toggleVideoLike c2Db (some "videoaaaaaa1") (some "useraaaaaaa2")).2.likes ∧
    (toggleVideoLike c2Db (some "videoaaaaaa1") (some "useraaaaaaa2")).2.likes.filter
        (likeVideoMatch "videoaaaaaa1" "useraaaaaaa2") = [] ∧
    (toggleVideoLike c2Db (some "videoaaaaaa1") (some "useraaaaaaa2")).2.likes.length + 1 =
      c2Db.likes.length :=
  c9_toggleVideoLike_deletes_comment_like c2Db "videoaaaaaa1" "useraaaaaaa2"
    "commentaaaa1" sampleVideo
    ⟨0, some "videoaaaaaa1", some "commentaaaa1", "useraaaaaaa2"⟩
    (by decide) (by decide) (by decide) (by decide) (by decide)

/-- Freshly created Likes have an `_id` above every existing one, so
deleting the new Like by id restores the original list. -/
theorem fresh_append_erase {xs : List LikeDoc} {d : LikeDoc}
    (hfresh : ∀ l ∈ xs, l._id < d._id) :
    (xs ++ [d]).eraseP (fun l => l._id == d._id) = xs := by
  have h1 : ∀ b ∈ xs, ¬ ((fun l => l._id == d._id) b = true) := by
    intro b hb
    simp only [beq_iff_eq]
    exact Nat.ne_of_lt (hfresh b hb)
  rw [List.eraseP_append_right _ h1, List.eraseP_cons_of_pos (by simp)]
  exact List.append_nil xs

/-- Appending a matching element to a list with no match makes `find?`
return exactly that element. -/
theorem find?_append_none_right {q : α → Bool} {xs : List α} {d : α}
    (hnone : xs.find? q = none) (hd : q d = true) :
    (xs ++ [d]).find? q = some d := by
  rw [List.find?_append, hnone, List.find?_cons_of_pos _ hd]
  rfl

/-- The first match found by `find?` heads the `filter` output. -/
theorem filter_eq_cons_of_find? {q : α → Bool} {xs : List α} {v : α}
    (h : xs.find? q = some v) : ∃ vs, xs.filter q = v :: vs := by
  induction xs with
  | nil => simp at h
  | cons x xs ih =>
    by_cases hx : q x = true
    · rw [List.find?_cons_of_pos _ hx] at h
      cases h
      exact ⟨xs.filter q, List.filter_cons_of_pos hx⟩
    · rw [List.find?_cons_of_neg _ (by simp [hx])] at h
      obtain ⟨vs, hvs⟩ := ih h
      exact ⟨vs, by rw [List.filter_cons_of_neg (by simp [hx]), hvs]⟩

/-- Unfolding of `toggleCommentLike` in the delete branch. -/
theorem toggleCommentLike_delete_eq (db : DB) (cid uid : String)
    (c : CommentDoc) (lk : LikeDoc)
    (hval : isValidObjectId cid = true)
    (hc : db.comments.find? (fun x => x._id == cid) = some c)
    (hfind : db.likes.find? (likeCommentMatch cid uid) = some lk) :
    toggleCommentLike db (some cid) (some uid) =
      (.ok false,
        { db with likes := db.likes.eraseP (fun l => l._id == lk._id) }) := by
  unfold toggleCommentLike
  simp [hval, hc, hfind]

/-- Unfolding of `toggleCommentLike` in the create branch. -/
theorem toggleCommentLike_create_eq (db : DB) (cid uid : String) (c : CommentDoc)
    (hval : isValidObjectId cid = true)
    (hc : db.comments.find? (fun x => x._id == cid) = some c)
    (hnone : db.likes.find? (likeCommentMatch cid uid) = none) :
    toggleCommentLike db (some cid) (some uid) =
      (.ok true,
        { db with
            likes := db.likes ++ [⟨db.nextId, some c.video, some cid, uid⟩],
            nextId := db.nextId + 1 }) := by
  unfold toggleCommentLike
  simp [hval, hc, hnone]

/-- Reachable state in which TWO Likes match `toggleVideoLike`'s lookup
for ("videoaaaaaa1", "useraaaaaaa2"): a plain video-like and a
comment-like that denormalizes the same video. -/
def c4Db : DB :=
  { videos := [sampleVideo], comments := [sampleComment],
    likes := [⟨0, some "videoaaaaaa1", none, "useraaaaaaa2"⟩,
              ⟨1, some "videoaaaaaa1", some "commentaaaa1", "useraaaaaaa2"⟩],
    subscriptions := [], users := [ownerUser, likerUser], nextId := 2 }

/-- C4 (counterexample): `c4Db` is reached from the empty-likes sample
state by `toggleVideoLike` then `toggleCommentLike`; from it, toggling the
video like twice does NOT return to the original state: a matching Like
existed before, existence does not alternate (still present after the
first call), both calls report `isLiked = false`, and after the two calls
no matching Like exists. -/
theorem c4_counterexample :
    (toggleCommentLike
        (toggleVideoLike c1Db (some "videoaaaaaa1") (some "useraaaaaaa2")).2
        (some "commentaaaa1") (some "useraaaaaaa2")).2 = c4Db ∧
    hasVideoLike c4Db "videoaaaaaa1" "useraaaaaaa2" = true ∧
    (toggleVideoLike c4Db (some "videoaaaaaa1") (some "useraaaaaaa2")).1 =
      .ok false ∧
    hasVideoLike (toggleVideoLike c4Db (some "videoaaaaaa1")
        (some "useraaaaaaa2")).2 "videoaaaaaa1" "useraaaaaaa2" = true ∧
    (toggleVideoLike
        (toggleVideoLike c4Db (some "videoaaaaaa1") (some "useraaaaaaa2")).2
        (some "videoaaaaaa1") (some "useraaaaaaa2")).1 = .ok false ∧
    hasVideoLike
      (toggleVideoLike
        (toggleVideoLike c4Db (some "videoaaaaaa1") (some "useraaaaaaa2")).2
        (some "videoaaaaaa1") (some "useraaaaaaa2")).2
      "videoaaaaaa1" "useraaaaaaa2" = false := by
  refine ⟨by decide, by decide, by decide, by decide, by decide, by decide⟩

/-- Double toggle of a video like restores existence of a matching Like,
provided at most one Like matches the (video, liker) lookup. -/
theorem double_toggle_video_spec (db : DB) (vid uid : String) (w : VideoDoc)
    (hval : isValidObjectId vid = true)
    (hv : db.videos.find? (fun v => v._id == vid) = some w)
    (hle : (db.likes.filter (likeVideoMatch vid uid)).length ≤ 1)
    (hids : (db.likes.map (fun l => l._id)).Nodup)
    (hfresh : ∀ l ∈ db.likes, l._id < db.nextId) :
    (toggleVideoLike db (some vid) (some uid)).1 =
      .ok (!(hasVideoLike db vid uid)) ∧
    hasVideoLike (toggleVideoLike db (some vid) (some uid)).2 vid uid =
      !(hasVideoLike db vid uid) ∧
    (toggleVideoLike (toggleVideoLike db (some vid) (some uid)).2
        (some vid) (some uid)).1 = .ok (hasVideoLike db vid uid) ∧
    hasVideoLike (toggleVideoLike (toggleVideoLike db (some vid) (some uid)).2
        (some vid) (some uid)).2 vid uid = hasVideoLike db vid uid := by
  rcases hfind : db.likes.find? (likeVideoMatch vid uid) with _ | lk
  · -- no existing like: create, then delete the fresh one
    have h0 : hasVideoLike db vid uid = false := by
      simp [hasVideoLike, hfind]
    have e1 := toggleVideoLike_create_eq db vid uid w hval hv hfind
    have hqnl : likeVideoMatch vid uid (⟨db.nextId, some vid, none, uid⟩ : LikeDoc) = true := by
      simp [likeVideoMatch]
    have hfind1 : (db.likes ++ [(⟨db.nextId, some vid, none, uid⟩ : LikeDoc)]).find?
        (likeVideoMatch vid uid) = some ⟨db.nextId, some vid, none, uid⟩ :=
      find?_append_none_right hfind hqnl
    have e2 := toggleVideoLike_delete_eq
      { db with
          likes := db.likes ++ [⟨db.nextId, some vid, none, uid⟩],
          nextId := db.nextId + 1 }
      vid uid w (⟨db.nextId, some vid, none, uid⟩ : LikeDoc) hval hv hfind1
    have herase : (db.likes ++ [(⟨db.nextId, some vid, none, uid⟩ : LikeDoc)]).eraseP
        (fun l => l._id == (⟨db.nextId, some vid, none, uid⟩ : LikeDoc)._id) =
        db.likes := fresh_append_erase hfresh
    rw [e1, h0]
    refine ⟨rfl, by simp [hasVideoLike, hfind1], ?_, ?_⟩
    · rw [e2]
    · rw [e2]
      simp only [hasVideoLike]
      rw [herase, hfind]
      rfl
  · -- existing like: delete it, then recreate a match
    have h0 : hasVideoLike db vid uid = true := by
      simp [hasVideoLike, hfind]
    obtain ⟨vs, hvs⟩ := filter_eq_cons_of_find? hfind
    have hvs0 : vs = [] := by
      rw [hvs] at hle
      simp only [List.length_cons] at hle
      exact List.length_eq_zero.mp (by omega)
    subst hvs0
    obtain ⟨hfind', hfilter1, hnot, hlen⟩ := single_match_erase_spec hvs hids
    have e1 := toggleVideoLike_delete_eq db vid uid w lk hval hv hfind
    have hfind1 : (db.likes.eraseP (fun l => l._id == lk._id)).find?
        (likeVideoMatch vid uid) = none := by
      rw [List.find?_eq_none]
      intro x hx
      exact (List.filter_eq_nil_iff.mp hfilter1) x hx
    have e2 := toggleVideoLike_create_eq
      { db with likes := db.likes.eraseP (fun l => l._id == lk._id) }
      vid uid w hval hv hfind1
    rw [e1, h0]
    refine ⟨rfl, by simp [hasVideoLike, hfind1], ?_, ?_⟩
    · rw [e2]
    · rw [e2]
      simp only [hasVideoLike]
      have : likeVideoMatch vid uid
          ⟨(({ db with likes := db.likes.eraseP (fun l => l._id == lk._id) } : DB)).nextId,
            some vid, none, uid⟩ = true := by
        simp [likeVideoMatch]
      rw [find?_append_none_right hfind1 this]
      rfl

/-- Double toggle of a comment like restores existence of a matching Like,
provided at most one Like matches the (comment, liker) lookup. -/
theorem double_toggle_comment_spec (db : DB) (cid uid : String) (c : CommentDoc)
    (hval : isValidObjectId cid = true)
    (hc : db.comments.find? (fun x => x._id == cid) = some c)
    (hle : (db.likes.filter (likeCommentMatch cid uid)).length ≤ 1)
    (hids : (db.likes.map (fun l => l._id)).Nodup)
    (hfresh : ∀ l ∈ db.likes, l._id < db.nextId) :
    (toggleCommentLike db (some cid) (some uid)).1 =
      .ok (!(hasCommentLike db cid uid)) ∧
    hasCommentLike (toggleCommentLike db (some cid) (some uid)).2 cid uid =
      !(hasCommentLike db cid uid) ∧
    (toggleCommentLike (toggleCommentLike db (some cid) (some uid)).2
        (some cid) (some uid)).1 = .ok (hasCommentLike db cid uid) ∧
    hasCommentLike (toggleCommentLike (toggleCommentLike db (some cid) (some uid)).2
        (some cid) (some uid)).2 cid uid = hasCommentLike db cid uid := by
  rcases hfind : db.likes.find? (likeCommentMatch cid uid) with _ | lk
  · have h0 : hasCommentLike db cid uid = false := by
      simp [hasCommentLike, hfind]
    have e1 := toggleCommentLike_create_eq db cid uid c hval hc hfind
    have hqnl : likeCommentMatch cid uid
        (⟨db.nextId, some c.video, some cid, uid⟩ : LikeDoc) = true := by
      simp [likeCommentMatch]
    have hfind1 : (db.likes ++ [(⟨db.nextId, some c.video, some cid, uid⟩ : LikeDoc)]).find?
        (likeCommentMatch cid uid) = some ⟨db.nextId, some c.video, some cid, uid⟩ :=
      find?_append_none_right hfind hqnl
    have e2 := toggleCommentLike_delete_eq
      { db with
          likes := db.likes ++ [⟨db.nextId, some c.video, some cid, uid⟩],
          nextId := db.nextId + 1 }
      cid uid c (⟨db.nextId, some c.video, some cid, uid⟩ : LikeDoc) hval hc hfind1
    have herase : (db.likes ++ [(⟨db.nextId, some c.video, some cid, uid⟩ : LikeDoc)]).eraseP
        (fun l => l._id == (⟨db.nextId, some c.video, some cid, uid⟩ : LikeDoc)._id) =
        db.likes := fresh_append_erase hfresh
    rw [e1, h0]
    refine ⟨rfl, by simp [hasCommentLike, hfind1], ?_, ?_⟩
    · rw [e2]
    · rw [e2]
      simp only [hasCommentLike]
      rw [herase, hfind]
      rfl
  · have h0 : hasCommentLike db cid uid = true := by
      simp [hasCommentLike, hfind]
    obtain ⟨vs, hvs⟩ := filter_eq_cons_of_find? hfind
    have hvs0 : vs = [] := by
      rw [hvs] at hle
      simp only [List.length_cons] at hle
      exact List.length_eq_zero.mp (by omega)
    subst hvs0
    obtain ⟨hfind', hfilter1, hnot, hlen⟩ := single_match_erase_spec hvs hids
    have e1 := toggleCommentLike_delete_eq db cid uid c lk hval hc hfind
    have hfind1 : (db.likes.eraseP (fun l => l._id == lk._id)).find?
        (likeCommentMatch cid uid) = none := by
      rw [List.find?_eq_none]
      intro x hx
      exact (List.filter_eq_nil_iff.mp hfilter1) x hx
    have e2 := toggleCommentLike_create_eq
      { db with likes := db.likes.eraseP (fun l => l._id == lk._id) }
      cid uid c hval hc hfind1
    rw [e1, h0]
    refine ⟨rfl, by simp [hasCommentLike, hfind1], ?_, ?_⟩
    · rw [e2]
    · rw [e2]
      simp only [hasCommentLike]
      have hq2 : likeCommentMatch cid uid
          ⟨(({ db with likes := db.likes.eraseP (fun l => l._id == lk._id) } : DB)).nextId,
            some c.video, some cid, uid⟩ = true := by
        simp [likeCommentMatch]
      rw [find?_append_none_right hfind1 hq2]
      rfl

/-- C4 (amended): provided at most one Like matches the toggle's lookup
key — for `toggleVideoLike` the (video reference, liker) pair, which can
be violated when the liker also holds a comment-like denormalizing the
same video; for `toggleCommentLike` the (comment reference, liker) pair —
running the toggle twice in sequence (with fresh distinct Like ids)
restores existence of a matching Like record to the original: existence
alternates between the calls, and the returned isLiked boolean is true
exactly when the call created the record and false exactly when it
deleted it. -/
theorem c4_double_toggle_spec :
    (∀ (db : DB) (vid uid : String) (w : VideoDoc),
      isValidObjectId vid = true →
      db.videos.find? (fun v => v._id == vid) = some w →
      (db.likes.filter (likeVideoMatch vid uid)).length ≤ 1 →
      (db.likes.map (fun l => l._id)).Nodup →
      (∀ l ∈ db.likes, l._id < db.nextId) →
      (toggleVideoLike db (some vid) (some uid)).1 =
        .ok (!(hasVideoLike db vid uid)) ∧
      hasVideoLike (toggleVideoLike db (some vid) (some uid)).2 vid uid =
        !(hasVideoLike db vid uid) ∧
      (toggleVideoLike (toggleVideoLike db (some vid) (some uid)).2
          (some vid) (some uid)).1 = .ok (hasVideoLike db vid uid) ∧
      hasVideoLike (toggleVideoLike (toggleVideoLike db (some vid) (some uid)).2
          (some vid) (some uid)).2 vid uid = hasVideoLike db vid uid) ∧
    (∀ (db : DB) (cid uid : String) (c : CommentDoc),
      isValidObjectId cid = true →
      db.comments.find? (fun x => x._id == cid) = some c →
      (db.likes.filter (likeCommentMatch cid uid)).length ≤ 1 →
      (db.likes.map (fun l => l._id)).Nodup →
      (∀ l ∈ db.likes, l._id < db.nextId) →
      (toggleCommentLike db (some cid) (some uid)).1 =
        .ok (!(hasCommentLike db cid uid)) ∧
      hasCommentLike (toggleCommentLike db (some cid) (some uid)).2 cid uid =
        !(hasCommentLike db cid uid) ∧
      (toggleCommentLike (toggleCommentLike db (some cid) (some uid)).2
          (some cid) (some uid)).1 = .ok (hasCommentLike db cid uid) ∧
      hasCommentLike (toggleCommentLike (toggleCommentLike db (some cid) (some uid)).2
          (some cid) (some uid)).2 cid uid = hasCommentLike db cid uid) :=
  ⟨fun db vid uid w hval hv hle hids hfresh =>
      double_toggle_video_spec db vid uid w hval hv hle hids hfresh,
    fun db cid uid c hval hc hle hids hfresh =>
      double_toggle_comment_spec db cid uid c hval hc hle hids hfresh⟩

/-- C4 (witness): both parts of the amended theorem applied to the
comment-like sample state, whose single Like matches each lookup exactly
once. -/
theorem c4_witness :
    ((toggleVideoLike c2Db (some "videoaaaaaa1") (some "useraaaaaaa2")).1 =
        .ok (!(hasVideoLike c2Db "videoaaaaaa1" "useraaaaaaa2")) ∧
      hasVideoLike (toggleVideoLike c2Db (some "videoaaaaaa1")
          (some "useraaaaaaa2")).2 "videoaaaaaa1" "useraaaaaaa2" =
        !(hasVideoLike c2Db "videoaaaaaa1" "useraaaaaaa2") ∧
      (toggleVideoLike (toggleVideoLike c2Db (some "videoaaaaaa1") (some "useraaaaaaa2")).2
          (some "videoaaaaaa1") (some "useraaaaaaa2")).1 =
        .ok (hasVideoLike c2Db "videoaaaaaa1" "useraaaaaaa2") ∧
      hasVideoLike (toggleVideoLike
          (toggleVideoLike c2Db (some "videoaaaaaa1") (some "useraaaaaaa2")).2
          (some "videoaaaaaa1") (some "useraaaaaaa2")).2 "videoaaaaaa1" "useraaaaaaa2" =
        hasVideoLike c2Db "videoaaaaaa1" "useraaaaaaa2") ∧
    ((toggleCommentLike c2Db (some "commentaaaa1") (some "useraaaaaaa2")).1 =
        .ok (!(hasCommentLike c2Db "commentaaaa1" "useraaaaaaa2")) ∧
      hasCommentLike (toggleCommentLike c2Db (some "commentaaaa1")
          (some "useraaaaaaa2")).2 "commentaaaa1" "useraaaaaaa2" =
        !(hasCommentLike c2Db "commentaaaa1" "useraaaaaaa2") ∧
      (toggleCommentLike (toggleCommentLike c2Db (some "commentaaaa1") (some "useraaaaaaa2")).2
          (some "commentaaaa1") (some "useraaaaaaa2")).1 =
        .ok (hasCommentLike c2Db "commentaaaa1" "useraaaaaaa2") ∧
      hasCommentLike (toggleCommentLike
          (toggleCommentLike c2Db (some "commentaaaa1") (some "useraaaaaaa2")).2
          (some "commentaaaa1") (some "useraaaaaaa2")).2 "commentaaaa1" "useraaaaaaa2" =
        hasCommentLike c2Db "commentaaaa1" "useraaaaaaa2") :=
  ⟨c4_double_toggle_spec.1 c2Db "videoaaaaaa1" "useraaaaaaa2" sampleVideo
      (by decide) (by decide) (by decide) (by decide) (by decide),
    c4_double_toggle_spec.2 c2Db "commentaaaa1" "useraaaaaaa2" sampleComment
      (by decide) (by decide) (by decide) (by decide) (by decide)⟩

/-- C5: `getVideoById` fails with 400 on a malformed id and with 404 when
no (owner-joined) video matches, leaving the database unchanged in both
cases; for an existing video (first stored match `v`, owner present) it
increments exactly that video's stored view counter by exactly 1 —
everything else in the state is unchanged — and the response carries the
post-increment value `v.views + 1`. -/
theorem c5_getVideoById_spec (db : DB) :
    (∀ vid : String, isValidObjectId vid = false →
      getVideoById db (some vid) = (.error ⟨400, "Invalid Video ID"⟩, db)) ∧
    (∀ vid : String, isValidObjectId vid = true →
      db.videos.filter (fun w => w._id == vid) = [] →
      getVideoById db (some vid) = (.error ⟨404, "Video not found"⟩, db)) ∧
    (∀ (vid : String) (v : VideoDoc) (vs : List VideoDoc)
        (u : UserDoc) (us : List UserDoc),
      isValidObjectId vid = true →
      db.videos.filter (fun w => w._id == vid) = v :: vs →
      db.users.filter (fun x => x._id == v.owner) = u :: us →
      ∃ pre post,
        db.videos = pre ++ v :: post ∧
        (∀ w ∈ pre, (w._id == vid) = false) ∧
        (getVideoById db (some vid)).1 =
          .ok { mkVideoView v u with views := v.views + 1 } ∧
        (getVideoById db (some vid)).2 =
          { db with videos := pre ++ { v with views := v.views + 1 } :: post }) := by
  refine ⟨?_, ?_, ?_⟩
  · intro vid hval
    unfold getVideoById
    simp [hval]
  · intro vid hval hfilter
    unfold getVideoById
    simp only [hval, Bool.not_true, Bool.false_eq_true, if_false]
    rw [hfilter]
    simp
  · intro vid v vs u us hval hfilter husers
    obtain ⟨pre, post, hx, hpre, hq, hpost⟩ := filter_eq_cons_decomp hfilter
    have hupd := updateFirstP_of_decomp (fun w => w._id == vid)
      (fun w => { w with views := w.views + 1 }) hx hpre hq
    refine ⟨pre, post, hx, hpre, ?_, ?_⟩
    · unfold getVideoById
      simp only [hval, Bool.not_true, Bool.false_eq_true, if_false]
      rw [hfilter]
      simp only [List.flatMap_cons]
      rw [husers]
      simp only [List.map_cons, List.cons_append]
      rw [hupd]
    · unfold getVideoById
      simp only [hval, Bool.not_true, Bool.false_eq_true, if_false]
      rw [hfilter]
      simp only [List.flatMap_cons]
      rw [husers]
      simp only [List.map_cons, List.cons_append]
      rw [hupd]

/-- C5 (witness): all three parts of the theorem applied to the sample
state: malformed id, absent valid id, and the existing sample video whose
counter goes from 7 to 8. -/
theorem c5_witness :
    getVideoById c2Db (some "zz") = (.error ⟨400, "Invalid Video ID"⟩, c2Db) ∧
    getVideoById c2Db (some "videoaaaaaa2") = (.error ⟨404, "Video not found"⟩, c2Db) ∧
    (∃ pre post,
      c2Db.videos = pre ++ sampleVideo :: post ∧
      (∀ w ∈ pre, (w._id == "videoaaaaaa1") = false) ∧
      (getVideoById c2Db (some "videoaaaaaa1")).1 =
        .ok { mkVideoView sampleVideo ownerUser with views := sampleVideo.views + 1 } ∧
      (getVideoById c2Db (some "videoaaaaaa1")).2 =
        { c2Db with videos := pre ++ { sampleVideo with views := sampleVideo.views + 1 } :: post }) :=
  ⟨(c5_getVideoById_spec c2Db).1 "zz" (by decide),
    (c5_getVideoById_spec c2Db).2.1 "videoaaaaaa2" (by decide) (by decide),
    (c5_getVideoById_spec c2Db).2.2 "videoaaaaaa1" sampleVideo [] ownerUser []
      (by decide) (by decide) (by decide)⟩

/-- Denormalization invariant of reachable states: a Like referencing an
existing comment carries that comment's owning video as its video
reference (this is how `toggleCommentLike` creates every comment-like). -/
def LikesDenormalized (db : DB) : Prop :=
  ∀ l ∈ db.likes, ∀ c ∈ db.comments, l.comment = some c._id → l.video = some c.video

instance (db : DB) : Decidable (LikesDenormalized db) := by
  unfold LikesDenormalized
  infer_instance

/-- Likes associated with a video: carrying its reference directly, or
referencing one of its comments (the claim's counting set). -/
def likeAssociated (db : DB) (vid : String) (l : LikeDoc) : Bool :=
  l.video == some vid ||
    db.comments.any (fun c => (c.video == vid) && (l.comment == some c._id))

/-- C3: for a video owned by the caller, a successful `deleteVideo`
returns deleted-count 1 and removes exactly the N comments referencing
the video, exactly the M likes associated with the video (direct
video-likes and likes of its comments — equal to the `{video: vid}`
delete set under the denormalization invariant), and exactly one video
row; afterwards no Like references the video or any of its former
comments. -/
theorem c3_deleteVideo_cascade (db : DB) (ms : MediaStore) (vid : String)
    (v : VideoDoc)
    (hval : isValidObjectId vid = true)
    (hv : db.videos.find? (fun w => w._id == vid) = some v)
    (hinv : LikesDenormalized db) :
    (deleteVideo db ms (some vid) (some v.owner)).1 = .ok 1 ∧
    (deleteVideo db ms (some vid) (some v.owner)).2.1.comments.length +
      (db.comments.filter (fun c => c.video == vid)).length =
      db.comments.length ∧
    (deleteVideo db ms (some vid) (some v.owner)).2.1.likes.length +
      (db.likes.filter (likeAssociated db vid)).length = db.likes.length ∧
    (deleteVideo db ms (some vid) (some v.owner)).2.1.videos.length + 1 =
      db.videos.length ∧
    (∀ l ∈ (deleteVideo db ms (some vid) (some v.owner)).2.1.likes,
      ¬ l.video = some vid ∧
      ∀ c ∈ db.comments, c.video = vid → ¬ l.comment = some c._id) := by
  have hmem : v ∈ db.videos := List.mem_of_find?_eq_some hv
  have hpv : (v._id == vid) = true := by
    have h := List.find?_some hv
    exact h
  have hpos : 0 < db.videos.length := List.length_pos_of_mem hmem
  have hlen : (db.videos.eraseP (fun w => w._id == vid)).length =
      db.videos.length - 1 := List.length_eraseP_of_mem hmem hpv
  have hcnt : db.videos.length -
      (db.videos.eraseP (fun w => w._id == vid)).length = 1 := by
    rw [hlen]; omega
  have hassoc : db.likes.filter (likeAssociated db vid) =
      db.likes.filter (fun l => l.video == some vid) := by
    apply List.filter_congr
    intro l hl
    unfold likeAssociated
    rcases hv2 : (l.video == some vid) with _ | _
    · simp only [Bool.false_or]
      rw [List.any_eq_false]
      intro c hc
      simp only [Bool.and_eq_true, beq_iff_eq, not_and]
      intro hcv hlc
      have := hinv l hl c hc hlc
      rw [this, hcv] at hv2
      simp at hv2
    · simp
  have hout : deleteVideo db ms (some vid) (some v.owner) =
      ((.ok 1 : Except ApiError Nat),
        { db with
            likes := db.likes.filter (fun l => !(l.video == some vid)),
            comments := db.comments.filter (fun c => !(c.video == vid)),
            videos := db.videos.eraseP (fun w => w._id == vid) },
        match v.thumbnailPublicId with
        | some pid =>
          deleteFromCloudinary
            (match v.videoPublicId with
              | some pid2 => deleteFromCloudinary ms pid2
              | none => ms) pid
        | none =>
          match v.videoPublicId with
          | some pid2 => deleteFromCloudinary ms pid2
          | none => ms) := by
    unfold deleteVideo
    simp only [hval, Bool.not_true, Bool.false_eq_true, if_false, hv,
      beq_self_eq_true, Bool.not_false, if_true, hcnt]
    simp
  rw [hout]
  refine ⟨rfl, ?_, ?_, ?_, ?_⟩
  · have h := List.length_eq_length_filter_add (l := db.comments)
      (fun c => c.video == vid)
    simp only []
    omega
  · rw [hassoc]
    have h := List.length_eq_length_filter_add (l := db.likes)
      (fun l => l.video == some vid)
    simp only []
    omega
  · simp only []
    rw [hlen]
    omega
  · intro l hl
    simp only [] at hl
    rw [List.mem_filter] at hl
    obtain ⟨hmem2, hneg⟩ := hl
    simp only [Bool.not_eq_true', beq_eq_false_iff_ne, ne_eq] at hneg
    refine ⟨hneg, ?_⟩
    intro c hc hcv hlc
    have := hinv l hmem2 c hc hlc
    rw [hcv] at this
    exact hneg this

/-- C3 (witness): deleting the sample video (1 comment, 2 associated
likes: a video-like and a comment-like) removes 1 comment, 2 likes and
1 video, leaving no like referencing the video or its former comment. -/
theorem c3_witness :
    (deleteVideo c4Db [] (some "videoaaaaaa1") (some sampleVideo.owner)).1 = .ok 1 ∧
    (deleteVideo c4Db [] (some "videoaaaaaa1") (some sampleVideo.owner)).2.1.comments.length +
      (c4Db.comments.filter (fun c => c.video == "videoaaaaaa1")).length =
      c4Db.comments.length ∧
    (deleteVideo c4Db [] (some "videoaaaaaa1") (some sampleVideo.owner)).2.1.likes.length +
      (c4Db.likes.filter (likeAssociated c4Db "videoaaaaaa1")).length =
      c4Db.likes.length ∧
    (deleteVideo c4Db [] (some "videoaaaaaa1") (some sampleVideo.owner)).2.1.videos.length + 1 =
      c4Db.videos.length ∧
    (∀ l ∈ (deleteVideo c4Db [] (some "videoaaaaaa1") (some sampleVideo.owner)).2.1.likes,
      ¬ l.video = some "videoaaaaaa1" ∧
      ∀ c ∈ c4Db.comments, c.video = "videoaaaaaa1" → ¬ l.comment = some c._id) :=
  c3_deleteVideo_cascade c4Db [] "videoaaaaaa1" sampleVideo
    (by decide) (by decide) (by decide)

/-- C6: in `updateVideo`, each replaced asset is uploaded before the old
one is deleted. Part one: when the new video file's upload fails, the
operation errors with 500 and the database AND media store are completely
unchanged — in particular the old video asset is not deleted. Part two:
when the new thumbnail's upload fails (the video file having been skipped
or replaced successfully), the operation errors with 500, the database is
unchanged, and the old thumbnail asset is still in the media store. -/
theorem c6_updateVideo_upload_before_delete :
    (∀ (db : DB) (ms : MediaStore) (up : String → Option UploadResult)
        (vid : String) (v : VideoDoc)
        (title description thumbPath : Option String) (p : String),
      isValidObjectId vid = true →
      db.videos.find? (fun w => w._id == vid) = some v →
      up p = none →
      updateVideo db ms up (some vid) (some v.owner) title description
          (some p) thumbPath =
        (.error ⟨500, "Error while uploading new video file to Cloudinary (no URL or public_id)"⟩,
          db, ms)) ∧
    (∀ (db : DB) (ms : MediaStore) (up : String → Option UploadResult)
        (vid : String) (v : VideoDoc)
        (title description videoPath : Option String) (q : String),
      isValidObjectId vid = true →
      db.videos.find? (fun w => w._id == vid) = some v →
      up q = none →
      (videoPath = none ∨ ∃ p r, videoPath = some p ∧ up p = some r) →
      ∃ ms1,
        updateVideo db ms up (some vid) (some v.owner) title description
            videoPath (some q) =
          (.error ⟨500, "Error while uploading new thumbnail to Cloudinary"⟩, db, ms1) ∧
        (∀ pid, v.thumbnailPublicId = some pid → ¬ v.videoPublicId = some pid →
          pid ∈ ms → pid ∈ ms1)) := by
  constructor
  · intro db ms up vid v title description thumbPath p hval hv hup
    unfold updateVideo
    simp [hval, hv, hup]
  · intro db ms up vid v title description videoPath q hval hv hup hvp
    rcases hvp with hnone | ⟨p, r, hsome, hupp⟩
    · subst hnone
      refine ⟨ms, ?_, fun pid hpid hne hmem => hmem⟩
      unfold updateVideo
      simp [hval, hv, hup]
    · subst hsome
      refine ⟨match v.videoPublicId with
          | some oldPid => deleteFromCloudinary (uploadToStore ms r) oldPid
          | none => uploadToStore ms r, ?_, ?_⟩
      · unfold updateVideo
        simp [hval, hv, hup, hupp]
      · intro pid hpid hne hmem
        rcases hold : v.videoPublicId with _ | oldPid
        · simp only [hold]
          exact List.mem_append_left _ hmem
        · simp only [hold]
          unfold deleteFromCloudinary
          rw [List.mem_filter]
          refine ⟨List.mem_append_left _ hmem, ?_⟩
          rw [hold] at hne
          simp only [Bool.not_eq_eq_eq_not, Bool.not_true, beq_eq_false_iff_ne, ne_eq]
          intro heq
          exact hne (by rw [heq])

/-- C6 (witness): both parts applied to the sample video. A failing video
upload leaves the store `["pubv1", "pubt1"]` untouched; a failing
thumbnail upload (after a successful video replacement) leaves the old
thumbnail asset "pubt1" in the store. -/
theorem c6_witness :
    (updateVideo c2Db ["pubv1", "pubt1"] (fun x => none) (some "videoaaaaaa1")
        (some sampleVideo.owner) none none (some "newvid.mp4") none =
      (.error ⟨500, "Error while uploading new video file to Cloudinary (no URL or public_id)"⟩,
        c2Db, ["pubv1", "pubt1"])) ∧
    (∃ ms1,
      updateVideo c2Db ["pubv1", "pubt1"]
          (fun s => if s == "thumbnew.png" then none
            else some ⟨"http://new", "newpid", 5⟩)
          (some "videoaaaaaa1") (some sampleVideo.owner) none none
          (some "vidnew.mp4") (some "thumbnew.png") =
        (.error ⟨500, "Error while uploading new thumbnail to Cloudinary"⟩, c2Db, ms1) ∧
      (∀ pid, sampleVideo.thumbnailPublicId = some pid →
        ¬ sampleVideo.videoPublicId = some pid →
        pid ∈ (["pubv1", "pubt1"] : MediaStore) → pid ∈ ms1)) :=
  ⟨c6_updateVideo_upload_before_delete.1 c2Db ["pubv1", "pubt1"] (fun x => none)
      "videoaaaaaa1" sampleVideo none none none "newvid.mp4"
      (by decide) (by decide) rfl,
    c6_updateVideo_upload_before_delete.2 c2Db ["pubv1", "pubt1"]
      (fun s => if s == "thumbnew.png" then none else some ⟨"http://new", "newpid", 5⟩)
      "videoaaaaaa1" sampleVideo none none (some "vidnew.mp4") "thumbnew.png"
      (by decide) (by decide) (by decide)
      (Or.inr ⟨"vidnew.mp4", ⟨"http://new", "newpid", 5⟩, rfl, by decide⟩)⟩

/-- When `updateFirstP` found nothing, the list is returned unchanged. -/
theorem updateFirstP_none_eq {p : α → Bool} {f : α → α} {xs : List α}
    (h : (updateFirstP p f xs).1 = none) : (updateFirstP p f xs).2 = xs := by
  induction xs with
  | nil => rfl
  | cons x xs ih =>
    by_cases hx : p x = true
    · simp [updateFirstP, hx] at h
    · simp only [updateFirstP, hx, Bool.false_eq_true, if_false] at h ⊢
      rw [ih h]

/-- Every run of `updateVideo` either leaves the database unchanged or
returns a success: the single database write happens only on the success
path, after every requested upload has succeeded. -/
theorem updateVideo_db_unchanged_or_ok (db : DB) (ms : MediaStore)
    (up : String → Option UploadResult)
    (videoId userId title description videoPath thumbPath : Option String) :
    (updateVideo db ms up videoId userId title description videoPath thumbPath).2.1 = db ∨
    ∃ d, (updateVideo db ms up videoId userId title description videoPath thumbPath).1 =
      .ok d := by
  simp only [updateVideo]
  repeat' split
  all_goals try (left; rfl)
  all_goals try (right; exact ⟨_, rfl⟩)
  all_goals left
  all_goals rw [updateFirstP_none_eq (by assumption)]

/-- C10: whenever `updateVideo` fails with any error (invalid input, not
found, forbidden, or a failed upload), the stored Video collection — and
the whole database — is unchanged: the single database write is performed
only after every requested upload has succeeded (even though media-store
deletions of replaced assets may already have occurred). -/
theorem c10_updateVideo_no_write_on_error (db : DB) (ms : MediaStore)
    (up : String → Option UploadResult)
    (videoId userId title description videoPath thumbPath : Option String)
    (e : ApiError)
    (herr : (updateVideo db ms up videoId userId title description videoPath
        thumbPath).1 = .error e) :
    (updateVideo db ms up videoId userId title description videoPath
        thumbPath).2.1 = db := by
  rcases updateVideo_db_unchanged_or_ok db ms up videoId userId title
      description videoPath thumbPath with h | ⟨d, hd⟩
  · exact h
  · rw [herr] at hd
    exact absurd hd (by simp)

/-- C10 (witness): a failing update (thumbnail upload fails) leaves the
database unchanged even though the store may have changed. -/
theorem c10_witness :
    (updateVideo c2Db ["pubv1", "pubt1"]
        (fun s => if s == "thumbnew.png" then none
          else some ⟨"http://new", "newpid", 5⟩)
        (some "videoaaaaaa1") (some sampleVideo.owner) none none
        (some "vidnew.mp4") (some "thumbnew.png")).2.1 = c2Db :=
  c10_updateVideo_no_write_on_error c2Db ["pubv1", "pubt1"]
    (fun s => if s == "thumbnew.png" then none
      else some ⟨"http://new", "newpid", 5⟩)
    (some "videoaaaaaa1") (some sampleVideo.owner) none none
    (some "vidnew.mp4") (some "thumbnew.png")
    ⟨500, "Error while uploading new thumbnail to Cloudinary"⟩ (by decide)
